import Mathlib

/-!
Shallow embedding of the synergy analysis engine of `synergy_app`
(`models/data_models.py`, `models/analyzer.py`, `config/settings.py`).

Python floats are modelled as exact rationals `ℚ`; `float('inf')` by the
dedicated constructor `QInf.inf`.  Python dicts (which preserve insertion
order) are modelled as association lists `List (String × α)`.  Calls into
the external numeric libraries (numpy / scipy / sklearn) are modelled by a
record `NumLib` of abstract functions supplied to the engine; the properties
the engine relies on (for example, that a standard error is nonnegative)
appear as explicit hypotheses of the theorems.
-/

namespace SynergyApp

/-- A Python float that may be `float('inf')` (`analyzer.py` line 133). -/
inductive QInf where
| fin : ℚ → QInf
| inf : QInf
deriving DecidableEq, Repr

/-- `ANALYSIS_CONFIG['confidence_level']` (`settings.py`). -/
def confidence_level : ℚ := 95 / 100

/-- `ANALYSIS_CONFIG['significance_threshold']` (`settings.py`). -/
def significance_threshold : ℚ := 5 / 100

/-- The shape of `SYNERGY_THRESHOLDS` (`settings.py` lines 49-54). -/
structure Thresholds where
  strong_synergy : ℚ
  moderate_synergy : ℚ
  additive_upper : ℚ
  weak_antagonism : ℚ
deriving DecidableEq, Repr

/-- `SYNERGY_THRESHOLDS` (`settings.py` lines 49-54). -/
def SYNERGY_THRESHOLDS : Thresholds :=
  { strong_synergy := 1 / 2
    moderate_synergy := 9 / 10
    additive_upper := 11 / 10
    weak_antagonism := 2 }

/-- `np.mean` on a list of rationals (`sum / len`; the `ℚ` division by zero
yields `0` for the empty list, a case no condition with replicate values
reaches). -/
def listMean (xs : List ℚ) : ℚ := xs.sum / xs.length

/-- The square of `np.std(values, ddof=1)`: the Bessel-corrected sample
variance, `0` when `n ≤ 1` (`data_models.py` line 25). -/
def sampleVar (xs : List ℚ) : ℚ :=
  if 1 < xs.length then (xs.map (fun x => (x - listMean xs) ^ 2)).sum / ((xs.length : ℚ) - 1)
  else 0

/-- `ParameterData` (`data_models.py` lines 10-28): one parameter's replicate
values.  The derived statistics `mean`, `std`, `n` are modelled as functions
of the stored `values` (the source computes them once in `__post_init__`,
which is equivalent because `values` is never mutated afterwards);
`__post_init__` sets `ci_lower`/`ci_upper` to `None`;
`ExperimentData.from_dict` restores serialized bounds afterwards. -/
structure ParameterData where
  parameter_name : String
  unit : String
  values : List ℚ
  ci_lower : Option ℚ := none
  ci_upper : Option ℚ := none
deriving DecidableEq, Repr

/-- `np.mean(self.values)` (`data_models.py` line 24). -/
def ParameterData.mean (p : ParameterData) : ℚ := listMean p.values

/-- Square of the stored `std = np.std(self.values, ddof=1)` (`data_models.py`
line 25).  The engine only ever uses `std` squared or compares it with zero,
so its square determines every use (`std = √stdSq` and `std = 0 ↔ stdSq = 0`). -/
def ParameterData.stdSq (p : ParameterData) : ℚ := sampleVar p.values

/-- `len(self.values)` (`data_models.py` line 26). -/
def ParameterData.n (p : ParameterData) : ℕ := p.values.length

/-- `ExperimentData` (`data_models.py` lines 31-160): one experimental
condition holding a dict of measured parameters. -/
structure ExperimentData where
  amount_a : ℚ
  amount_b : ℚ
  parameters : List (String × ParameterData) := []
  condition_name : String := ""
  timestamp : String := ""
deriving DecidableEq, Repr

/-- `ExperimentData.primary_parameter` (`data_models.py` lines 48-53): the
first entry of the insertion-ordered parameters dict, `None` when empty. -/
def ExperimentData.primary_parameter (d : ExperimentData) : Option ParameterData :=
  d.parameters.head?.map Prod.snd

/-- `ExperimentData.values` (`data_models.py` lines 56-61). -/
def ExperimentData.values (d : ExperimentData) : List ℚ :=
  match d.primary_parameter with
  | some p => p.values
  | none => []

/-- `ExperimentData.mean` (`data_models.py` lines 63-68). -/
def ExperimentData.mean (d : ExperimentData) : ℚ :=
  match d.primary_parameter with
  | some p => p.mean
  | none => 0

/-- Square of `ExperimentData.std` (`data_models.py` lines 70-75); the
default branch returns `0.0`, whose square is `0`. -/
def ExperimentData.stdSq (d : ExperimentData) : ℚ :=
  match d.primary_parameter with
  | some p => p.stdSq
  | none => 0

/-- `ExperimentData.n` (`data_models.py` lines 77-82). -/
def ExperimentData.n (d : ExperimentData) : ℕ :=
  match d.primary_parameter with
  | some p => p.n
  | none => 0

/-- `ExperimentData.ci_lower` (`data_models.py` lines 84-89). -/
def ExperimentData.ci_lower (d : ExperimentData) : Option ℚ :=
  match d.primary_parameter with
  | some p => p.ci_lower
  | none => none

/-- `ExperimentData.ci_upper` (`data_models.py` lines 91-96). -/
def ExperimentData.ci_upper (d : ExperimentData) : Option ℚ :=
  match d.primary_parameter with
  | some p => p.ci_upper
  | none => none

/-- Fitted Hill-equation parameters as `_fit_hill_equation` returns them on
success (`analyzer.py` lines 360-367); the numeric values come out of
scipy's `curve_fit`, so they are abstract here. -/
structure HillFit where
  top : ℚ
  bottom : ℚ
  ic50 : ℚ
  hill_slope : ℚ
  r_squared : ℚ
  parameter_errors : List ℚ
deriving DecidableEq, Repr

/-- A fitted response surface as `_fit_response_surface` returns it
(`analyzer.py` lines 296-303). -/
structure SurfaceFit where
  r_squared : ℚ
  rmse : ℚ
  coefficients : List ℚ
  intercept : ℚ
  feature_names : List String
  degree : ℕ
deriving DecidableEq, Repr

/-- `_fit_response_surface` either returns the fit dict or, from its
`except` clause, the `{'error': str(e)}` marker (`analyzer.py` lines
268-306); both are non-empty dicts, hence truthy at the call site. -/
inductive SurfaceOutcome where
| fit (f : SurfaceFit)
| error (msg : String)
deriving DecidableEq, Repr

/-- The external numeric library calls the engine makes (scipy statistics,
scipy `curve_fit` via `_fit_hill_equation`'s `try/except`, sklearn
regression via `_fit_response_surface`'s `try/except`), as abstract
functions.  `ttest_1samp`, `f_oneway` and `shapiro` return a
`(statistic, p-value)` pair like their scipy counterparts. -/
structure NumLib where
  sem : List ℚ → ℚ
  t_ppf : ℚ → ℕ → ℚ
  ttest_1samp : List ℚ → ℚ → ℚ × ℚ
  f_oneway : List (List ℚ) → ℚ × ℚ
  shapiro : List ℚ → ℚ × ℚ
  tukey_available : Bool
  tukey_hsd : List (List ℚ) → List (List ℚ)
  fit_hill : List ℚ → List ℚ → Option HillFit
  fit_surface : List (ℚ × ℚ) → List ℚ → SurfaceOutcome

/-- Python dict assignment `self.data[name] = v`: replacement in place when
the key exists (keeping its position), append otherwise. -/
def dictInsert {α : Type} (l : List (String × α)) (k : String) (v : α) :
    List (String × α) :=
  if (l.lookup k).isSome then l.map (fun kv => if kv.1 = k then (k, v) else kv)
  else l ++ [(k, v)]

/-- The mutable state of `SynergyAnalyzer` (`analyzer.py` lines 15-24). -/
structure SynergyAnalyzer where
  additive_a_name : String := ""
  additive_b_name : String := ""
  unit : String := ""
  effect_parameter : String := ""
  data : List (String × ExperimentData) := []
deriving DecidableEq, Repr

/-- `SynergyAnalyzer._calculate_confidence_intervals` (`analyzer.py` lines
95-112); `stats.sem` and `stats.t.ppf` are scipy calls supplied through
`lib`.  Its only caller, `add_data_point`, would pass the source's default
`confidence_level`. -/
def calculateConfidenceIntervals (lib : NumLib) (confidence : ℚ) (values : List ℚ) :
    Option ℚ × Option ℚ :=
  if values.length ≤ 1 then (none, none)
  else
    let n := values.length
    let mean := listMean values
    let std_err := lib.sem values
    let alpha := 1 - confidence
    let t_critical := lib.t_ppf (1 - alpha / 2) (n - 1)
    let margin_error := t_critical * std_err
    (some (mean - margin_error), some (mean + margin_error))

/-- The `__init__` parameter names of the `ExperimentData` dataclass
(`data_models.py` lines 31-38): `values` is a read-only property of the
multi-parameter refactor, not a constructor parameter. -/
def experimentDataInitParams : List String :=
  ["amount_a", "amount_b", "parameters", "condition_name", "timestamp"]

/-- A Python call of the generated dataclass `__init__` of `ExperimentData`
with the given keyword names: the first name outside the dataclass's
parameter list raises `TypeError`; with only known names the call binds.
(Argument values are not needed here — the one call site below never gets
past the name check.) -/
def experimentDataKwCall (kwNames : List String) : Except String Unit :=
  match kwNames.find? (fun k => !(experimentDataInitParams.contains k)) with
  | some k => .error ("TypeError: __init__() got an unexpected keyword argument " ++ k)
  | none => .ok ()

/-- `SynergyAnalyzer.add_data_point` (`analyzer.py` lines 34-51), as the
total function returning the raised exception or the updated state.  The
construction `ExperimentData(amount_a=…, amount_b=…, values=…,
condition_name=…)` (lines 37-42) passes the keyword `values`, which the
generated dataclass `__init__` does not accept, so the call raises
`TypeError` before any condition is stored and `add_data_point` never
returns.  (Were the construction to succeed, the `len(values) > 1` path
would next assign to the setterless properties `data_point.ci_lower` and
`data_point.ci_upper` of `data_models.py` lines 84-96 and raise
`AttributeError`; no success state is representable, so none is modelled.) -/
def addDataPoint (_lib : NumLib) (_a : SynergyAnalyzer) (_condition_name : String)
    (_amount_a _amount_b : ℚ) (_values : List ℚ) :
    Except String (SynergyAnalyzer × ExperimentData) :=
  match experimentDataKwCall ["amount_a", "amount_b", "values", "condition_name"] with
  | .error e => .error e
  | .ok _ => .error "unreachable: the keyword values is always rejected"

/-- Python `str.startswith`, evaluated on the character lists. -/
def pyStartsWith (s pfx : String) : Bool := pfx.toList.isPrefixOf s.toList

/-- The condition keys `_validate_data` requires (`analyzer.py` line 87). -/
def required_keys : List String := ["base", "additive_a", "additive_b"]

/-- `SynergyAnalyzer._validate_data` (`analyzer.py` lines 85-93). -/
def validateData (data : List (String × ExperimentData)) : Bool :=
  required_keys.all (fun k => (data.lookup k).isSome) &&
    decide (1 ≤ (data.filter (fun kv => pyStartsWith kv.1 "combination_")).length)

/-- Python truthiness of an optional float: `None` and `0.0` are both falsy
(`analyzer.py` line 185 tests `if p_value and p_value >= threshold`). -/
def pyTruthy : Option ℚ → Bool
| none => false
| some v => decide (v ≠ 0)

/-- `ci < q` on a possibly infinite combination index (`float('inf')` is
less than no finite threshold). -/
def QInf.ltQ : QInf → ℚ → Bool
| .fin x, q => decide (x < q)
| .inf, _ => false

/-- `ci ≤ q` on a possibly infinite combination index. -/
def QInf.leQ : QInf → ℚ → Bool
| .fin x, q => decide (x ≤ q)
| .inf, _ => false

/-- `SynergyAnalyzer._classify_synergy` (`analyzer.py` lines 183-198). -/
def classifySynergy (ci : QInf) (p_value : Option ℚ) : String :=
  let significance :=
    if pyTruthy p_value && decide (significance_threshold ≤ p_value.getD 0) then " (NS)"
    else ""
  if ci.ltQ SYNERGY_THRESHOLDS.strong_synergy then "Strong Synergy" ++ significance
  else if ci.ltQ SYNERGY_THRESHOLDS.moderate_synergy then "Moderate Synergy" ++ significance
  else if ci.leQ SYNERGY_THRESHOLDS.additive_upper then "Additive Effect" ++ significance
  else if ci.leQ SYNERGY_THRESHOLDS.weak_antagonism then "Weak Antagonism" ++ significance
  else "Strong Antagonism" ++ significance

/-- The value the analyzer stores for Cohen's d (`analyzer.py` line 159):
`ratio num pv` denotes `num / √pv` (the division by
`pooled_std = np.sqrt pv`), and `sentinelZero` is the literal `0` stored
when `pooled_std == 0`. -/
inductive CohensDVal where
| ratio (num : ℚ) (pooledVar : ℚ)
| sentinelZero
deriving DecidableEq, Repr

/-- The pooled variance, i.e. the square of `pooled_std` (`analyzer.py`
lines 154-158). -/
def pooledVar (d base : ExperimentData) : ℚ :=
  (((d.n : ℚ) - 1) * d.stdSq + ((base.n : ℚ) - 1) * base.stdSq) /
    ((d.n : ℚ) + (base.n : ℚ) - 2)

/-- One per-combination record of `_calculate_synergy_metrics`: the keyword
arguments of the `SynergyResult(...)` construction (`analyzer.py` lines
164-179), as one record of computed metric values.  (The dataclass
`SynergyResult` of `data_models.py` declares a different constructor field
set; see `DataModels.SynergyResult`.) -/
structure SynergyMetric where
  combination_id : String
  amount_a : ℚ
  amount_b : ℚ
  observed_effect : ℚ
  expected_additive : ℚ
  expected_bliss : ℚ
  combination_index : QInf
  enhancement : ℚ
  enhancement_percent : ℚ
  bliss_deviation : ℚ
  synergy_type : String
  p_value : Option ℚ
  cohens_d : Option CohensDVal
  confidence_interval : Option ℚ × Option ℚ
deriving DecidableEq, Repr

/-- One iteration of the combination loop of
`SynergyAnalyzer._calculate_synergy_metrics` (`analyzer.py` lines 126-179).
`stats.ttest_1samp` is a scipy call supplied through `lib`.  The test
`pooled_std != 0` on `pooled_std = np.sqrt pv` is modelled as `pv ≠ 0`,
which is equivalent for the nonnegative pooled variance
(`pooledVar_nonneg`). -/
def combinationMetric (lib : NumLib) (base : ExperimentData)
    (base_mean a_mean b_mean expected_additive : ℚ) (key : String) (d : ExperimentData) :
    SynergyMetric :=
  let comb_mean := d.mean
  let ci : QInf := if comb_mean ≠ 0 then .fin (expected_additive / comb_mean) else .inf
  let enhancement := comb_mean - expected_additive
  let enhancement_percent :=
    if expected_additive ≠ 0 then enhancement / expected_additive * 100 else 0
  let fa := if base_mean ≠ 0 then (a_mean - base_mean) / base_mean else 0
  let fb := if base_mean ≠ 0 then (b_mean - base_mean) / base_mean else 0
  let expected_bliss := base_mean * (1 + fa + fb + fa * fb)
  let bliss_deviation :=
    if expected_bliss ≠ 0 then (comb_mean - expected_bliss) / expected_bliss * 100 else 0
  let p_value : Option ℚ :=
    if 1 < d.n then some (lib.ttest_1samp d.values expected_additive).2 else none
  let cohens_d : Option CohensDVal :=
    if 1 < d.n then
      some (if pooledVar d base ≠ 0 then .ratio (comb_mean - base_mean) (pooledVar d base)
            else .sentinelZero)
    else none
  { combination_id := key
    amount_a := d.amount_a
    amount_b := d.amount_b
    observed_effect := comb_mean
    expected_additive := expected_additive
    expected_bliss := expected_bliss
    combination_index := ci
    enhancement := enhancement
    enhancement_percent := enhancement_percent
    bliss_deviation := bliss_deviation
    synergy_type := classifySynergy ci p_value
    p_value := p_value
    cohens_d := cohens_d
    confidence_interval := (d.ci_lower, d.ci_upper) }

/-- A Python dict access `self.data[k]`, total with an (unreachable after
validation) default. -/
def lookupOr (data : List (String × ExperimentData)) (k : String) : ExperimentData :=
  (data.lookup k).getD { amount_a := 0, amount_b := 0 }

/-- `SynergyAnalyzer._calculate_synergy_metrics` (`analyzer.py` lines
114-181). -/
def calculateSynergyMetrics (lib : NumLib) (data : List (String × ExperimentData)) :
    List (String × SynergyMetric) :=
  let base := lookupOr data "base"
  let base_mean := base.mean
  let a_mean := (lookupOr data "additive_a").mean
  let b_mean := (lookupOr data "additive_b").mean
  let expected_additive := base_mean + (a_mean - base_mean) + (b_mean - base_mean)
  data.filterMap (fun kv =>
    if pyStartsWith kv.1 "combination_" then
      some (kv.1, combinationMetric lib base base_mean a_mean b_mean expected_additive kv.1 kv.2)
    else none)

/-- The `results['anova']` entry (`analyzer.py` lines 216-221). -/
structure AnovaResult where
  f_statistic : ℚ
  p_value : ℚ
  groups_tested : List String
  significant : Bool
deriving DecidableEq, Repr

/-- The `results['tukey']` entry (`analyzer.py` lines 228-233): either the
computed pairwise p-values or, from the `except ImportError` branch, the
structured `{'error': …}` marker. -/
inductive TukeyResult where
| result (pairwise_pvalues : List (List ℚ)) (group_names : List String)
| unavailable (error : String)
deriving DecidableEq, Repr

/-- One entry of the normality map (`analyzer.py` lines 240-244). -/
structure NormalityResult where
  statistic : ℚ
  p_value : ℚ
  normal : Bool
deriving DecidableEq, Repr

/-- The dict `_perform_statistical_tests` returns (`analyzer.py` lines
200-249): absent dict keys are `none`; the `normality` key, which the
source omits exactly when the map is empty, is the empty list in that
case. -/
structure StatisticalResults where
  anova : Option AnovaResult
  tukey : Option TukeyResult
  normality : List (String × NormalityResult)
deriving DecidableEq, Repr

/-- `SynergyAnalyzer._perform_statistical_tests` (`analyzer.py` lines
200-249); `stats.f_oneway`, `scipy.stats.tukey_hsd` (whose importability is
`lib.tukey_available`) and `stats.shapiro` are supplied through `lib`. -/
def performStatisticalTests (lib : NumLib) (data : List (String × ExperimentData)) :
    StatisticalResults :=
  let grouped := data.filter (fun kv => decide (1 < kv.2.n))
  let groups := grouped.map (fun kv => kv.2.values)
  let group_names := grouped.map (fun kv => kv.1)
  let anova : Option AnovaResult :=
    if 2 ≤ groups.length then
      let fp := lib.f_oneway groups
      some { f_statistic := fp.1, p_value := fp.2, groups_tested := group_names,
             significant := decide (fp.2 < significance_threshold) }
    else none
  let tukey : Option TukeyResult :=
    if 2 ≤ groups.length then
      let fp := lib.f_oneway groups
      if fp.2 < significance_threshold ∧ 2 < groups.length then
        some (if lib.tukey_available then .result (lib.tukey_hsd groups) group_names
              else .unavailable "Tukey HSD requires scipy >= 1.7.0")
      else none
    else none
  let normality :=
    (data.filter (fun kv => decide (3 ≤ kv.2.n))).map (fun kv =>
      let sp := lib.shapiro kv.2.values
      (kv.1, ({ statistic := sp.1, p_value := sp.2,
                normal := decide (significance_threshold < sp.2) } : NormalityResult)))
  { anova := anova, tukey := tukey, normality := normality }

/-- The two optional sub-results of `_fit_models` (`analyzer.py` lines
251-266). -/
structure DoseResponse where
  additive_a : Option HillFit
  additive_b : Option HillFit
deriving DecidableEq, Repr

/-- The dict `_fit_models` returns (`analyzer.py` lines 251-266). -/
structure ModelResults where
  response_surface : Option SurfaceOutcome
  dose_response : Option DoseResponse
deriving DecidableEq, Repr

/-- `SynergyAnalyzer._fit_dose_response` (`analyzer.py` lines 308-338).
`_fit_hill_equation` (lines 340-369) wraps scipy's `curve_fit` and all
post-processing in `try/except` and returns `None` on any failure; it is
supplied as `lib.fit_hill`. -/
def fitDoseResponse (lib : NumLib) (data : List (String × ExperimentData)) :
    Option DoseResponse :=
  let aSel := data.filter (fun kv => decide (kv.2.amount_b = 0 ∧ 0 < kv.2.amount_a))
  let a_doses := aSel.map (fun kv => kv.2.amount_a)
  let a_effects := aSel.map (fun kv => kv.2.mean)
  let aRes := if 3 ≤ a_doses.length then lib.fit_hill a_doses a_effects else none
  let bSel := data.filter (fun kv => decide (kv.2.amount_a = 0 ∧ 0 < kv.2.amount_b))
  let b_doses := bSel.map (fun kv => kv.2.amount_b)
  let b_effects := bSel.map (fun kv => kv.2.mean)
  let bRes := if 3 ≤ b_doses.length then lib.fit_hill b_doses b_effects else none
  if aRes.isSome || bRes.isSome then some { additive_a := aRes, additive_b := bRes }
  else none

/-- `SynergyAnalyzer._fit_models` (`analyzer.py` lines 251-266); the
`if surface_result:` test is always true (both outcomes of
`_fit_response_surface` are non-empty dicts). -/
def fitModels (lib : NumLib) (data : List (String × ExperimentData)) : ModelResults :=
  let response_surface :=
    if 5 ≤ data.length then
      some (lib.fit_surface (data.map (fun kv => (kv.2.amount_a, kv.2.amount_b)))
        (data.map (fun kv => kv.2.mean)))
    else none
  { response_surface := response_surface, dose_response := fitDoseResponse lib data }

/-- The metadata dict `analyze` builds (`analyzer.py` lines 68-73). -/
structure Metadata where
  additive_a : String
  additive_b : String
  unit : String
  effect_parameter : String
deriving DecidableEq, Repr

/-- The `AnalysisResults` bundle as `analyze` composes it (`analyzer.py`
lines 75-81). -/
structure AnalysisResults where
  metadata : Metadata
  raw_data : List (String × ExperimentData)
  synergy_results : List (String × SynergyMetric)
  statistical_results : StatisticalResults
  model_results : ModelResults
deriving DecidableEq, Repr

/-- `SynergyAnalyzer.analyze` (`analyzer.py` lines 53-83), as the total
function from the analyzer state to either the raised `ValueError`'s
message or the composed result. -/
def analyze (lib : NumLib) (a : SynergyAnalyzer) : Except String AnalysisResults :=
  if validateData a.data then
    .ok { metadata := { additive_a := a.additive_a_name, additive_b := a.additive_b_name,
                        unit := a.unit, effect_parameter := a.effect_parameter }
          raw_data := a.data
          synergy_results := calculateSynergyMetrics lib a.data
          statistical_results := performStatisticalTests lib a.data
          model_results := fitModels lib a.data }
  else .error "Insufficient data for analysis"

/-- JSON-compatible Python values as `to_dict`/`from_dict` pass them:
numbers, strings, booleans, `None`, lists and string-keyed dicts.  `infv`
is the float `float('inf')`; `sqrtv q` is a float of the form `√q`, the
shape of a serialized sample standard deviation. -/
inductive JValue where
| null : JValue
| num : ℚ → JValue
| infv : JValue
| sqrtv : ℚ → JValue
| str : String → JValue
| bool : Bool → JValue
| arr : List JValue → JValue
| obj : List (String × JValue) → JValue

/-- Serialize a possibly infinite float. -/
def QInf.toJ : QInf → JValue
| .fin q => .num q
| .inf => .infv

/-- Serialize an optional float (`None` becomes JSON `null`). -/
def optNumJ : Option ℚ → JValue
| none => .null
| some q => .num q

/-- Dict lookup on a JSON object, `none` on anything else. -/
def JValue.getKey? : JValue → String → Option JValue
| .obj fields, k => fields.lookup k
| _, _ => none

/-- `v[k]` on a dict: `KeyError` when the key is absent. -/
def getItem (v : JValue) (k : String) : Except String JValue :=
  match v.getKey? k with
  | some x => .ok x
  | none => .error ("KeyError: " ++ k)

/-- `k in v` on a dict. -/
def hasKey (v : JValue) (k : String) : Bool := (v.getKey? k).isSome

/-- Read a dict, `TypeError` otherwise. -/
def asObj : JValue → Except String (List (String × JValue))
| .obj fields => .ok fields
| _ => .error "TypeError: not a dict"

/-- Read a number, `TypeError` otherwise. -/
def asNum : JValue → Except String ℚ
| .num q => .ok q
| _ => .error "TypeError: not a number"

/-- Read a string, `TypeError` otherwise. -/
def asStr : JValue → Except String String
| .str s => .ok s
| _ => .error "TypeError: not a str"

/-- Read a list of numbers, `TypeError` otherwise. -/
def asNumList : JValue → Except String (List ℚ)
| .arr xs => xs.mapM asNum
| _ => .error "TypeError: not a list"

/-- Read an optional number (`null` is `None`), `TypeError` otherwise. -/
def asOptNum : JValue → Except String (Option ℚ)
| .null => .ok none
| .num q => .ok (some q)
| _ => .error "TypeError: not a number or None"

/-- One entry of the parameters dict in `ExperimentData.to_dict`
(`data_models.py` lines 104-116). -/
def paramToJ (p : ParameterData) : JValue :=
  .obj [("parameter_name", .str p.parameter_name),
        ("unit", .str p.unit),
        ("values", .arr (p.values.map JValue.num)),
        ("mean", .num p.mean),
        ("std", .sqrtv p.stdSq),
        ("n", .num (p.n : ℚ)),
        ("ci_lower", optNumJ p.ci_lower),
        ("ci_upper", optNumJ p.ci_upper)]

/-- `ExperimentData.to_dict` (`data_models.py` lines 98-118). -/
def ExperimentData.to_dict (d : ExperimentData) : JValue :=
  .obj [("condition_name", .str d.condition_name),
        ("amount_a", .num d.amount_a),
        ("amount_b", .num d.amount_b),
        ("parameters", .obj (d.parameters.map (fun np => (np.1, paramToJ np.2)))),
        ("timestamp", .str d.timestamp)]

/-- The param reconstruction inside `ExperimentData.from_dict`
(`data_models.py` lines 128-135): rebuild `ParameterData` from
`parameter_name`, `unit` and `values`, then restore the CI bounds via
`.get` (absent keys become `None`). -/
def paramFromDict (v : JValue) : Except String ParameterData := do
  let pname ← asStr (← getItem v "parameter_name")
  let punit ← asStr (← getItem v "unit")
  let pvalues ← asNumList (← getItem v "values")
  let lo ← asOptNum ((v.getKey? "ci_lower").getD .null)
  let hi ← asOptNum ((v.getKey? "ci_upper").getD .null)
  pure { parameter_name := pname, unit := punit, values := pvalues,
         ci_lower := lo, ci_upper := hi }

/-- `ExperimentData.from_dict` (`data_models.py` lines 120-160): the
multi-parameter branch when a `parameters` key exists, the legacy
single-parameter branch (one `"primary"` entry named "Legacy Parameter")
otherwise. -/
def ExperimentData.from_dict (v : JValue) : Except String ExperimentData := do
  if hasKey v "parameters" then
    let params ← asObj (← getItem v "parameters")
    let parameters ← params.mapM (fun kv => do
      let p ← paramFromDict kv.2
      pure (kv.1, p))
    let aa ← asNum (← getItem v "amount_a")
    let ab ← asNum (← getItem v "amount_b")
    let cname ← asStr ((v.getKey? "condition_name").getD (.str ""))
    pure { amount_a := aa, amount_b := ab, parameters := parameters,
           condition_name := cname }
  else
    let lvalues ← asNumList (← getItem v "values")
    let lo ← asOptNum ((v.getKey? "ci_lower").getD .null)
    let hi ← asOptNum ((v.getKey? "ci_upper").getD .null)
    let aa ← asNum (← getItem v "amount_a")
    let ab ← asNum (← getItem v "amount_b")
    let cname ← asStr ((v.getKey? "condition_name").getD (.str ""))
    pure { amount_a := aa, amount_b := ab,
           parameters := [("primary",
             { parameter_name := "Legacy Parameter", unit := "", values := lvalues,
               ci_lower := lo, ci_upper := hi })],
           condition_name := cname }

namespace DataModels

/-- `ParameterSynergyResult` (`data_models.py` lines 163-177). -/
structure ParameterSynergyResult where
  parameter_name : String
  observed_effect : ℚ
  expected_additive : ℚ
  expected_bliss : ℚ
  combination_index : QInf
  enhancement : ℚ
  enhancement_percent : ℚ
  bliss_deviation : ℚ
  synergy_type : String
  p_value : Option ℚ := none
  cohens_d : Option ℚ := none
  confidence_interval : Option ℚ × Option ℚ := (none, none)
deriving DecidableEq, Repr

/-- `SynergyResult` (`data_models.py` lines 195-201): exactly the dataclass
fields its generated `__init__` accepts. -/
structure SynergyResult where
  combination_id : String
  amount_a : ℚ
  amount_b : ℚ
  parameter_results : List (String × ParameterSynergyResult) := []
deriving DecidableEq, Repr

/-- `SynergyResult.primary_result` (`data_models.py` lines 211-216). -/
def SynergyResult.primary_result (r : SynergyResult) : Option ParameterSynergyResult :=
  r.parameter_results.head?.map Prod.snd

/-- `SynergyResult.observed_effect` (`data_models.py` lines 219-222). -/
def SynergyResult.observed_effect (r : SynergyResult) : ℚ :=
  match r.primary_result with
  | some p => p.observed_effect
  | none => 0

/-- `SynergyResult.expected_additive` (lines 224-227). -/
def SynergyResult.expected_additive (r : SynergyResult) : ℚ :=
  match r.primary_result with
  | some p => p.expected_additive
  | none => 0

/-- `SynergyResult.expected_bliss` (lines 229-232). -/
def SynergyResult.expected_bliss (r : SynergyResult) : ℚ :=
  match r.primary_result with
  | some p => p.expected_bliss
  | none => 0

/-- `SynergyResult.combination_index` (lines 234-237). -/
def SynergyResult.combination_index (r : SynergyResult) : QInf :=
  match r.primary_result with
  | some p => p.combination_index
  | none => .inf

/-- `SynergyResult.enhancement` (lines 239-242). -/
def SynergyResult.enhancement (r : SynergyResult) : ℚ :=
  match r.primary_result with
  | some p => p.enhancement
  | none => 0

/-- `SynergyResult.enhancement_percent` (lines 244-247). -/
def SynergyResult.enhancement_percent (r : SynergyResult) : ℚ :=
  match r.primary_result with
  | some p => p.enhancement_percent
  | none => 0

/-- `SynergyResult.bliss_deviation` (lines 249-252). -/
def SynergyResult.bliss_deviation (r : SynergyResult) : ℚ :=
  match r.primary_result with
  | some p => p.bliss_deviation
  | none => 0

/-- `SynergyResult.synergy_type` (lines 254-257). -/
def SynergyResult.synergy_type (r : SynergyResult) : String :=
  match r.primary_result with
  | some p => p.synergy_type
  | none => "Unknown"

/-- `SynergyResult.p_value` (lines 259-262). -/
def SynergyResult.p_value (r : SynergyResult) : Option ℚ :=
  match r.primary_result with
  | some p => p.p_value
  | none => none

/-- `SynergyResult.cohens_d` (lines 264-267). -/
def SynergyResult.cohens_d (r : SynergyResult) : Option ℚ :=
  match r.primary_result with
  | some p => p.cohens_d
  | none => none

/-- `SynergyResult.confidence_interval` (lines 269-272). -/
def SynergyResult.confidence_interval (r : SynergyResult) : Option ℚ × Option ℚ :=
  match r.primary_result with
  | some p => p.confidence_interval
  | none => (none, none)

/-- `SynergyResult.to_dict` (`data_models.py` lines 289-306): the flat
metric dict read through the primary-parameter accessors. -/
def SynergyResult.to_dict (r : SynergyResult) : List (String × JValue) :=
  [("combination_id", .str r.combination_id),
   ("amount_a", .num r.amount_a),
   ("amount_b", .num r.amount_b),
   ("observed_effect", .num r.observed_effect),
   ("expected_additive", .num r.expected_additive),
   ("expected_bliss", .num r.expected_bliss),
   ("combination_index", r.combination_index.toJ),
   ("enhancement", .num r.enhancement),
   ("enhancement_percent", .num r.enhancement_percent),
   ("bliss_deviation", .num r.bliss_deviation),
   ("synergy_type", .str r.synergy_type),
   ("p_value", optNumJ r.p_value),
   ("cohens_d", optNumJ r.cohens_d),
   ("confidence_interval",
     .arr [optNumJ r.confidence_interval.1, optNumJ r.confidence_interval.2])]

/-- The `__init__` parameter names of the `SynergyResult` dataclass
(`data_models.py` lines 195-201): a keyword argument outside this list
makes the generated constructor raise `TypeError`. -/
def synergyResultInitParams : List String :=
  ["combination_id", "amount_a", "amount_b", "parameter_results"]

/-- `SynergyResult(**v)` as `AnalysisResults.from_dict` calls it
(`data_models.py` line 355): Python expands the dict `v` into keyword
arguments and the generated `__init__` rejects the first name that is not
one of its parameters.  (A `parameter_results` keyword, which no serialized
dict carries, would be stored untyped by Python; it is rejected here, a
corner unreachable from `to_dict` output.) -/
def SynergyResult.fromKwargs (kw : List (String × JValue)) : Except String SynergyResult :=
  match kw.find? (fun p => !(synergyResultInitParams.contains p.1)) with
  | some p => .error ("TypeError: __init__() got an unexpected keyword argument " ++ p.1)
  | none =>
    match kw.lookup "combination_id", kw.lookup "amount_a", kw.lookup "amount_b",
        kw.lookup "parameter_results" with
    | some c, some aa, some ab, none => do
      let cid ← asStr c
      let a ← asNum aa
      let b ← asNum ab
      pure { combination_id := cid, amount_a := a, amount_b := b }
    | _, _, _, _ => .error "TypeError: __init__() missing or undecodable argument"

/-- `AnalysisResults` (`data_models.py` lines 324-332), the serialization
container: `metadata`, `statistical_results` and `model_results` are
loosely typed dicts in the source and stay generic JSON here. -/
structure AnalysisResults where
  metadata : List (String × JValue)
  raw_data : List (String × ExperimentData)
  synergy_results : List (String × SynergyResult)
  statistical_results : JValue := .obj []
  model_results : JValue := .obj []
  timestamp : String := ""

/-- `AnalysisResults.to_dict` (`data_models.py` lines 334-343). -/
def AnalysisResults.to_dict (r : AnalysisResults) : JValue :=
  .obj [("metadata", .obj r.metadata),
        ("raw_data", .obj (r.raw_data.map (fun kv => (kv.1, kv.2.to_dict)))),
        ("synergy_results", .obj (r.synergy_results.map (fun kv => (kv.1, .obj kv.2.to_dict)))),
        ("statistical_results", r.statistical_results),
        ("model_results", r.model_results),
        ("timestamp", .str r.timestamp)]

/-- `AnalysisResults.from_dict` (`data_models.py` lines 345-363): rebuild
`raw_data` through `ExperimentData.from_dict`, then each synergy result
through `SynergyResult(**v)`; `synergy_results`, `statistical_results` and
`model_results` fall back to `{}` via `.get`, and the timestamp is not
restored. -/
def AnalysisResults.from_dict (v : JValue) : Except String AnalysisResults := do
  let rawObj ← asObj (← getItem v "raw_data")
  let raw_data ← rawObj.mapM (fun kv => do
    let d ← ExperimentData.from_dict kv.2
    pure (kv.1, d))
  let synObj ← asObj ((v.getKey? "synergy_results").getD (.obj []))
  let synergy_results ← synObj.mapM (fun kv => do
    let fields ← asObj kv.2
    let r ← SynergyResult.fromKwargs fields
    pure (kv.1, r))
  let metadata ← asObj (← getItem v "metadata")
  pure { metadata := metadata, raw_data := raw_data, synergy_results := synergy_results,
         statistical_results := (v.getKey? "statistical_results").getD (.obj []),
         model_results := (v.getKey? "model_results").getD (.obj []) }

end DataModels

/-- A single-parameter condition with the given replicate values — the
shape `ExperimentData.from_dict`'s legacy branch builds and
`FileHandler.load_results` installs into the analyzer's condition map. -/
def mkCond (aa ab : ℚ) (vs : List ℚ) : ExperimentData :=
  { amount_a := aa, amount_b := ab,
    parameters := [("primary", { parameter_name := "primary", unit := "", values := vs })] }

/-- A concrete stand-in for the external numeric library, used in
witnesses and counterexamples. -/
def testLib : NumLib :=
  { sem := fun _ => 1
    t_ppf := fun _ _ => 2
    ttest_1samp := fun _ _ => (0, 1 / 2)
    f_oneway := fun _ => (1, 1 / 100)
    shapiro := fun _ => (1, 1 / 2)
    tukey_available := true
    tukey_hsd := fun gs => gs.map (fun _ => [])
    fit_hill := fun _ _ =>
      some { top := 1, bottom := 0, ic50 := 1, hill_slope := 1, r_squared := 1,
             parameter_errors := [] }
    fit_surface := fun _ _ => .error "singular matrix" }

/-- A condition map missing the required key `additive_b`. -/
def missingBAnalyzer : SynergyAnalyzer :=
  { data := [("base", mkCond 0 0 [10]), ("additive_a", mkCond 1 0 [15]),
             ("combination_1", mkCond 1 1 [18])] }

/-- A condition map missing the required key `base` instead. -/
def missingBaseAnalyzer : SynergyAnalyzer :=
  { data := [("additive_a", mkCond 1 0 [15]), ("additive_b", mkCond 0 1 [20]),
             ("combination_1", mkCond 1 1 [18])] }

/-- A parameter-level synergy record with concrete values, as the
multi-parameter design of `data_models.py` populates it. -/
def exampleParamResult : DataModels.ParameterSynergyResult :=
  { parameter_name := "Capacity Retention", observed_effect := 18,
    expected_additive := 25, expected_bliss := 30, combination_index := .fin (25 / 18),
    enhancement := -7, enhancement_percent := -28, bliss_deviation := -40,
    synergy_type := "Weak Antagonism" }

/-- A populated serialization-layer `AnalysisResults`: four conditions and
one combination metric. -/
def exampleSerializedResult : DataModels.AnalysisResults :=
  { metadata := [("additive_a", .str "FEC"), ("additive_b", .str "VC"),
                 ("unit", .str "wt%"), ("effect_parameter", .str "Capacity Retention")]
    raw_data := [("base", mkCond 0 0 [10]), ("additive_a", mkCond 1 0 [15]),
                 ("additive_b", mkCond 0 1 [20]), ("combination_1", mkCond 1 1 [18])]
    synergy_results := [("combination_1",
      { combination_id := "combination_1", amount_a := 1, amount_b := 1,
        parameter_results := [("Capacity Retention", exampleParamResult)] })] }

/-- C10: every statistics accessor of `ExperimentData` is total on a
condition whose parameters map is empty and returns its default: `values`
gives `[]`, `mean` gives `0.0`, `std` gives `0.0` (we state it through its
square `stdSq`, which is `0` exactly when the standard deviation is), `n`
gives `0`, and both confidence-interval bounds are `None`. -/
theorem emptyParameters_accessors_total (aa ab : ℚ) (name ts : String) :
    let d : ExperimentData :=
      { amount_a := aa, amount_b := ab, parameters := [], condition_name := name, timestamp := ts }
    d.values = [] ∧ d.mean = 0 ∧ d.stdSq = 0 ∧ d.n = 0 ∧
      d.ci_lower = none ∧ d.ci_upper = none :=
  ⟨rfl, rfl, rfl, rfl, rfl, rfl⟩

/-! Evaluation helpers for concrete fixtures. -/

theorem mkCond_values (aa ab : ℚ) (vs : List ℚ) : (mkCond aa ab vs).values = vs := rfl

theorem listMean_pair (x y : ℚ) : listMean [x, y] = (x + y) / 2 := by
  norm_num [listMean]

/-- C2 counterexample: the error raised for a condition map missing
`additive_b` is the fixed string "Insufficient data for analysis"; the map
missing `base` instead produces the identical message, so the message does
not identify the missing requirement (in particular it never mentions
`additive_b`). -/
theorem analyze_error_message_is_generic :
    analyze testLib missingBAnalyzer = .error "Insufficient data for analysis" ∧
    analyze testLib missingBaseAnalyzer = .error "Insufficient data for analysis" ∧
    ¬ List.IsInfix "additive_b".toList "Insufficient data for analysis".toList := by
  refine ⟨rfl, rfl, by decide⟩

/-- C2 amended: if any required key (`base`, `additive_a`, `additive_b`) is
missing, or no `combination_` key exists, `analyze` fails — before any
metric is computed — with the fixed message "Insufficient data for
analysis", which does not name the specific missing requirement. -/
theorem analyze_fails_on_missing_requirement (lib : NumLib) (a : SynergyAnalyzer)
    (h : (∃ k ∈ required_keys, a.data.lookup k = none) ∨
      (a.data.filter (fun kv => pyStartsWith kv.1 "combination_")).length = 0) :
    analyze lib a = .error "Insufficient data for analysis" := by
  have hv : validateData a.data = false := by
    unfold validateData
    rcases h with ⟨k, hk, hnone⟩ | hlen
    · have : (required_keys.all fun k => (a.data.lookup k).isSome) = false := by
        simp only [List.all_eq_false]
        exact ⟨k, hk, by simp [hnone]⟩
      simp [this]
    · simp [hlen]
  unfold analyze
  simp [hv]

/-- Witness for the amended C2: the concrete map lacking `additive_b` is
rejected with the generic message. -/
theorem analyze_fails_on_missing_requirement_witness :
    analyze testLib missingBAnalyzer = .error "Insufficient data for analysis" :=
  analyze_fails_on_missing_requirement testLib missingBAnalyzer
    (Or.inl ⟨"additive_b", by decide, rfl⟩)

/-- C5 (code bug): `add_data_point` can never build a condition at all —
the `ExperimentData(amount_a=…, amount_b=…, values=…, condition_name=…)`
call passes the keyword `values`, which the dataclass constructor rejects,
so every call raises `TypeError` before any condition (with or without CI
bounds) is stored.  Meanwhile `_calculate_confidence_intervals` itself
computes exactly the claimed interval: both bounds `None` when `n ≤ 1`,
and `mean ∓ t·sem` — which brackets the mean — when `n > 1` (here at the
concrete `testLib` values `sem = 1`, `t = 2` on replicates `[1, 2]` with
mean `3/2`). -/
theorem addDataPoint_always_raises :
    (∀ (lib : NumLib) (a : SynergyAnalyzer) (name : String) (aa ab : ℚ) (vs : List ℚ),
      addDataPoint lib a name aa ab vs =
        .error ("TypeError: __init__() got an unexpected keyword argument " ++ "values")) ∧
    calculateConfidenceIntervals testLib confidence_level [5] = (none, none) ∧
    (calculateConfidenceIntervals testLib confidence_level [1, 2] =
      (some (-(1 / 2)), some (7 / 2)) ∧
      (-(1 / 2) : ℚ) ≤ listMean [1, 2] ∧ listMean [1, 2] ≤ 7 / 2) := by
  refine ⟨fun lib a name aa ab vs => rfl, ?_, ?_, ?_, ?_⟩
  · norm_num [calculateConfidenceIntervals]
  · norm_num [calculateConfidenceIntervals, testLib, confidence_level, listMean]
  · norm_num [listMean]
  · norm_num [listMean]

/-- C7 (code bug): serializing a populated `AnalysisResults` with `to_dict`
and feeding the mapping back through `from_dict` does not reproduce the
synergy metrics — the reconstruction raises `TypeError`, because
`from_dict` expands the flattened metric dict that `to_dict` wrote into
keyword arguments of `SynergyResult`, whose generated constructor accepts
only `combination_id`, `amount_a`, `amount_b` and `parameter_results`; the
first metric keyword, `observed_effect`, is rejected. -/
theorem roundtrip_from_dict_raises :
    DataModels.AnalysisResults.from_dict
        (DataModels.AnalysisResults.to_dict exampleSerializedResult) =
      .error ("TypeError: __init__() got an unexpected keyword argument " ++
        "observed_effect") := rfl

end SynergyApp
